import Mathlib

/-!
Verification of the row-filtering core of the sleep-and-lifestyle dashboard
repository (two variants: `src/app.py` and `src/project4/app.py`).

The shallow embedding models a pandas dataframe as a `List Row`, where `Row`
carries the columns the filtering logic reads: `Sleep Duration` (a decimal
number of hours, modelled as `ℚ` since the code only compares these values),
`Quality of Sleep`, `Stress Level`, `Physical Activity Level` (integers), and
the synthetic `Sample ID` added at load time by `src/app.py`.

Python optional arguments that default to `None` are modelled as `Option`;
Python truthiness of a list argument (`if stress:`) is `false` exactly for
`None` and the empty list, which the embedding reproduces by matching on the
option and testing emptiness.  The range-slider value is a two-element list
`[lo, hi]`, modelled as `Option (ℚ × ℚ)` (`None` ↦ `none`, `[lo, hi]` ↦
`some (lo, hi)`; both a nonempty Python list and `some _` are truthy).
Boolean-mask selection `filtered[mask]` keeps the masked rows in their
original order, which is `List.filter`.
-/

namespace SleepDashboard

/-- One row of the survey table, with the columns read by the code. -/
structure Row where
  sleepDuration : ℚ
  qualityOfSleep : ℤ
  stressLevel : ℤ
  physicalActivityLevel : ℤ
  sampleID : ℤ
deriving Repr, DecidableEq

/-- Embedding of the statement
`if stress: filtered = filtered[filtered['Stress Level'].isin(stress)]`
from `filter_df` in `src/app.py` (and the identical statement in
`update_plots` in `src/project4/app.py`): a falsy argument (`None` or `[]`)
leaves the frame unchanged, otherwise the rows whose `Stress Level` is a
member of `stress` are kept. -/
def applyStress (stress : Option (List ℤ)) (filtered : List Row) : List Row :=
  match stress with
  | none => filtered
  | some l =>
      if l.isEmpty then filtered
      else filtered.filter (fun row => l.contains row.stressLevel)

/-- Embedding of the statement
`if activity: filtered = filtered[filtered['Physical Activity Level'].isin(activity)]`
from `filter_df` in `src/app.py` (and the identical statement in
`update_plots` in `src/project4/app.py`). -/
def applyActivity (activity : Option (List ℤ)) (filtered : List Row) : List Row :=
  match activity with
  | none => filtered
  | some l =>
      if l.isEmpty then filtered
      else filtered.filter (fun row => l.contains row.physicalActivityLevel)

/-- Embedding of the statement
`if sleep_range: filtered = filtered[(filtered['Sleep Duration'] >= sleep_range[0]) & (filtered['Sleep Duration'] <= sleep_range[1])]`
from `filter_df` in `src/app.py`: a `None` range leaves the frame unchanged,
otherwise rows whose `Sleep Duration` lies in the closed interval are kept. -/
def applyRange (sleep_range : Option (ℚ × ℚ)) (filtered : List Row) : List Row :=
  match sleep_range with
  | none => filtered
  | some lohi =>
      filtered.filter (fun row =>
        decide (lohi.1 ≤ row.sleepDuration) && decide (row.sleepDuration ≤ lohi.2))

/-- Embedding of `filter_df(df, stress=None, activity=None, sleep_range=None)`
from `src/app.py`, lines 127-138: `filtered = df.copy()` followed by the three
conditional mask selections, applied in the source order (stress, then
activity, then sleep range). -/
def filter_df (df : List Row) (stress activity : Option (List ℤ))
    (sleep_range : Option (ℚ × ℚ)) : List Row :=
  let filtered := df
  let filtered := applyStress stress filtered
  let filtered := applyActivity activity filtered
  applyRange sleep_range filtered

/-- Embedding of the filtering prefix of `update_plots` in
`src/project4/app.py`, lines 70-76: `filtered_df = df.copy()` followed by the
two conditional mask selections (this variant has no sleep-range control). -/
def update_plots_rows (df : List Row)
    (selected_stress selected_activity : Option (List ℤ)) : List Row :=
  let filtered_df := df
  let filtered_df := applyStress selected_stress filtered_df
  applyActivity selected_activity filtered_df

/-- Modelled from the spec: the `Stress Level` predicate in the spec's words —
an absent or empty selection imposes no constraint, a nonempty selection is
set membership (OR within the set). -/
def specStressOK (stress : Option (List ℤ)) (row : Row) : Bool :=
  match stress with
  | none => true
  | some l => l.isEmpty || l.contains row.stressLevel

/-- Modelled from the spec: the `Physical Activity Level` predicate in the
spec's words — an absent or empty selection imposes no constraint, a nonempty
selection is set membership. -/
def specActivityOK (activity : Option (List ℤ)) (row : Row) : Bool :=
  match activity with
  | none => true
  | some l => l.isEmpty || l.contains row.physicalActivityLevel

/-- Modelled from the spec: the `Sleep Duration` predicate in the spec's
words — an absent interval imposes no constraint, a supplied interval
`[lo, hi]` is closed (inclusive at both endpoints). -/
def specRangeOK (sleep_range : Option (ℚ × ℚ)) (row : Row) : Bool :=
  match sleep_range with
  | none => true
  | some lohi =>
      decide (lohi.1 ≤ row.sleepDuration) && decide (row.sleepDuration ≤ lohi.2)

/-- Modelled from the spec: a row satisfies every supplied predicate
(logical AND across the three predicates). -/
def specRowOK (stress activity : Option (List ℤ)) (sleep_range : Option (ℚ × ℚ))
    (row : Row) : Bool :=
  specStressOK stress row && specActivityOK activity row && specRangeOK sleep_range row

lemma applyStress_eq_filter (stress : Option (List ℤ)) (m : List Row) :
    applyStress stress m = m.filter (specStressOK stress) := by
  cases stress with
  | none => exact (List.filter_true m).symm
  | some l =>
      show (if l.isEmpty then m else m.filter (fun row => l.contains row.stressLevel)) = _
      by_cases h : l.isEmpty
      · rw [if_pos h,
          List.filter_congr (fun row _ => by simp [specStressOK, h] : ∀ row ∈ m,
            specStressOK (some l) row = (fun _ => true) row),
          List.filter_true]
      · rw [if_neg h]
        exact List.filter_congr fun row _ => by simp [specStressOK, h]

lemma applyActivity_eq_filter (activity : Option (List ℤ)) (m : List Row) :
    applyActivity activity m = m.filter (specActivityOK activity) := by
  cases activity with
  | none => exact (List.filter_true m).symm
  | some l =>
      show (if l.isEmpty then m else m.filter (fun row => l.contains row.physicalActivityLevel)) = _
      by_cases h : l.isEmpty
      · rw [if_pos h,
          List.filter_congr (fun row _ => by simp [specActivityOK, h] : ∀ row ∈ m,
            specActivityOK (some l) row = (fun _ => true) row),
          List.filter_true]
      · rw [if_neg h]
        exact List.filter_congr fun row _ => by simp [specActivityOK, h]

lemma applyRange_eq_filter (sleep_range : Option (ℚ × ℚ)) (m : List Row) :
    applyRange sleep_range m = m.filter (specRangeOK sleep_range) := by
  cases sleep_range with
  | none => exact (List.filter_true m).symm
  | some lohi => rfl

/-- The sequential conditional masks of `filter_df` amount to one filter by
the conjunction of the three spec-side predicates. -/
lemma filter_spec (df : List Row) (stress activity : Option (List ℤ))
    (sleep_range : Option (ℚ × ℚ)) :
    filter_df df stress activity sleep_range =
      df.filter (specRowOK stress activity sleep_range) := by
  show applyRange sleep_range (applyActivity activity (applyStress stress df)) =
    df.filter (specRowOK stress activity sleep_range)
  rw [applyStress_eq_filter, applyActivity_eq_filter, applyRange_eq_filter,
    List.filter_filter, List.filter_filter]
  refine List.filter_congr fun row _ => ?_
  unfold specRowOK
  cases h₁ : specStressOK stress row <;>
    cases h₂ : specActivityOK activity row <;>
      cases h₃ : specRangeOK sleep_range row <;> rfl

/-- C1: for every input table and every combination of supplied predicates,
`filter_df` returns exactly the rows of the input satisfying every supplied
predicate (logical AND across predicates, OR within a set-membership
predicate, absent or empty predicates imposing no constraint), and its output
is a subset (in fact a sublist) of the input rows. -/
theorem spec_C1 (df : List Row) (stress activity : Option (List ℤ))
    (sleep_range : Option (ℚ × ℚ)) :
    filter_df df stress activity sleep_range =
      df.filter (specRowOK stress activity sleep_range) ∧
    (filter_df df stress activity sleep_range).Sublist df := by
  refine ⟨filter_spec df stress activity sleep_range, ?_⟩
  rw [filter_spec]
  exact List.filter_sublist df

/-- C3: with no predicates supplied (`None` everywhere, and likewise with the
empty selections the checklists start from), `filter_df` returns the input
table unchanged, row-for-row in the same order. -/
theorem spec_C3 (df : List Row) :
    filter_df df none none none = df ∧ filter_df df (some []) (some []) none = df :=
  ⟨rfl, rfl⟩

/-- C6: filtering is idempotent — applying `filter_df` to its own output with
the same predicates returns that output unchanged. -/
theorem spec_C6 (df : List Row) (stress activity : Option (List ℤ))
    (sleep_range : Option (ℚ × ℚ)) :
    filter_df (filter_df df stress activity sleep_range) stress activity sleep_range =
      filter_df df stress activity sleep_range := by
  simp only [filter_spec, List.filter_filter, Bool.and_self]

/-- C9: the output of `filter_df` is a sublist of the input — it preserves
the relative order and the multiplicity of the surviving rows. -/
theorem spec_C9 (df : List Row) (stress activity : Option (List ℤ))
    (sleep_range : Option (ℚ × ℚ)) :
    (filter_df df stress activity sleep_range).Sublist df := by
  rw [filter_spec]
  exact List.filter_sublist df

/-- A concrete four-row table whose `Sleep Duration` column is
`[5.0, 6.5, 8.0, 7.2]`, as in the spec's worked example. -/
def exRowA : Row :=
  { sleepDuration := 5.0, qualityOfSleep := 4, stressLevel := 8,
    physicalActivityLevel := 30, sampleID := 1 }

def exRowB : Row :=
  { sleepDuration := 6.5, qualityOfSleep := 7, stressLevel := 5,
    physicalActivityLevel := 60, sampleID := 2 }

def exRowC : Row :=
  { sleepDuration := 8.0, qualityOfSleep := 9, stressLevel := 3,
    physicalActivityLevel := 75, sampleID := 3 }

def exRowD : Row :=
  { sleepDuration := 7.2, qualityOfSleep := 8, stressLevel := 4,
    physicalActivityLevel := 45, sampleID := 4 }

def exampleTable : List Row := [exRowA, exRowB, exRowC, exRowD]

/-- C7: the `Sleep Duration` interval predicate is inclusive at both
endpoints — on the table with durations `[5.0, 6.5, 8.0, 7.2]`, the interval
`[6.0, 8.0]` keeps exactly the rows with `6.5`, `8.0` and `7.2` (the endpoint
value `8.0` survives) and drops the row with `5.0`. -/
theorem spec_C7 :
    filter_df exampleTable none none (some (6.0, 8.0)) = [exRowB, exRowC, exRowD] := by
  show applyRange (some (6.0, 8.0)) exampleTable = [exRowB, exRowC, exRowD]
  norm_num [applyRange, exampleTable, List.filter, exRowA, exRowB, exRowC, exRowD]

/-- C10: a reversed interval `[lo, hi]` with `hi < lo` is applied as an
ordinary (unsatisfiable) conjunction, so `filter_df` returns the empty
table — the interval is not treated as "no constraint". -/
theorem spec_C10 (df : List Row) (stress activity : Option (List ℤ)) (lo hi : ℚ)
    (h : hi < lo) :
    filter_df df stress activity (some (lo, hi)) = [] := by
  show applyRange (some (lo, hi)) (applyActivity activity (applyStress stress df)) = []
  simp only [applyRange]
  refine List.filter_eq_nil_iff.mpr fun row _ => ?_
  simp only [Bool.and_eq_true, decide_eq_true_eq, not_and]
  intro h1 h2
  linarith

/-- Witness for C10 at a concrete table and the reversed interval `[2, 1]`. -/
theorem spec_C10_witness : filter_df exampleTable none none (some (2, 1)) = [] :=
  spec_C10 exampleTable none none 2 1 (by norm_num)

/-- C2 fails as stated: an unknown `Stress Level` value (`99`, present in no
row of the concrete table) is not treated as "no constraint" — the rows the
handler charts are empty, while with the predicate absent they are the whole
table. -/
theorem spec_C2_counterexample :
    filter_df exampleTable (some [99]) none none ≠ filter_df exampleTable none none none := by
  simp [filter_df, applyStress, applyActivity, applyRange, exampleTable,
    exRowA, exRowB, exRowC, exRowD]

/-- C2 (amended): a malformed control value does not make a handler raise,
but it is applied as an ordinary predicate rather than treated as "no
constraint": a category value matching no row, or an interval containing no
row's `Sleep Duration`, yields zero rows — in both `filter_df` (`src/app.py`)
and the `update_plots` filtering (`src/project4/app.py`). -/
theorem spec_C2 (df : List Row) (v : ℤ) (lo hi : ℚ) :
    ((∀ row ∈ df, row.stressLevel ≠ v) →
      filter_df df (some [v]) none none = [] ∧
        update_plots_rows df (some [v]) none = []) ∧
    ((∀ row ∈ df, row.sleepDuration < lo ∨ hi < row.sleepDuration) →
      filter_df df none none (some (lo, hi)) = []) := by
  constructor
  · intro h
    have hs : applyStress (some [v]) df = [] := by
      show (if ([v] : List ℤ).isEmpty then df
        else df.filter (fun row => ([v] : List ℤ).contains row.stressLevel)) = []
      rw [if_neg (by simp)]
      refine List.filter_eq_nil_iff.mpr fun row hrow => ?_
      simp [h row hrow]
    constructor
    · show applyRange none (applyActivity none (applyStress (some [v]) df)) = []
      rw [hs]
      rfl
    · show applyActivity none (applyStress (some [v]) df) = []
      rw [hs]
      rfl
  · intro h
    show applyRange (some (lo, hi)) (applyActivity none (applyStress none df)) = []
    simp only [applyRange]
    refine List.filter_eq_nil_iff.mpr fun row hrow => ?_
    simp only [Bool.and_eq_true, decide_eq_true_eq, not_and]
    intro h1 h2
    rcases h row hrow with hlt | hgt
    · linarith
    · linarith

/-- Witness for the amended C2 at the concrete table, the unknown category
value `99` and the out-of-range interval `[100, 200]`. -/
theorem spec_C2_witness :
    (filter_df exampleTable (some [99]) none none = [] ∧
      update_plots_rows exampleTable (some [99]) none = []) ∧
    filter_df exampleTable none none (some (100, 200)) = [] := by
  refine ⟨(spec_C2 exampleTable 99 100 200).1 ?_, (spec_C2 exampleTable 99 100 200).2 ?_⟩
  · intro row hrow
    fin_cases hrow <;> decide
  · intro row hrow
    fin_cases hrow <;> norm_num [exRowA, exRowB, exRowC, exRowD]

/-- Embedding of a call `filter_df(df, ...)` together with the caller's
table: the function body starts with `filtered = df.copy()` and every later
statement rebinds the local `filtered` to a newly built frame; no statement
assigns into `df`, so the pair returned is (the caller's table after the
call, the value returned). -/
def filter_df_world (w : List Row) (stress activity : Option (List ℤ))
    (sleep_range : Option (ℚ × ℚ)) : List Row × List Row :=
  let filtered := w
  let filtered := applyStress stress filtered
  let filtered := applyActivity activity filtered
  let filtered := applyRange sleep_range filtered
  (w, filtered)

/-- C8: `filter_df` has no side effect on the source table and is
deterministic — the caller's table after a call is the table before it, the
value returned is `filter_df` of the inputs, and a second call on the
post-call table returns the same value as the first. -/
theorem spec_C8 (w : List Row) (stress activity : Option (List ℤ))
    (sleep_range : Option (ℚ × ℚ)) :
    (filter_df_world w stress activity sleep_range).1 = w ∧
    (filter_df_world w stress activity sleep_range).2 =
      filter_df w stress activity sleep_range ∧
    filter_df_world (filter_df_world w stress activity sleep_range).1
        stress activity sleep_range =
      filter_df_world w stress activity sleep_range :=
  ⟨rfl, rfl, rfl⟩

/-- Embedding of `df['Sample ID'] = range(1, len(df) + 1)` from `src/app.py`
line 13: the rows, in file order, receive the sequential 1-based integers
`1, 2, ..., len(df)` in their `Sample ID` column. -/
def add_sample_id (df : List Row) : List Row :=
  (df.zip (List.range' 1 df.length)).map (fun p => { p.1 with sampleID := (p.2 : ℤ) })

lemma add_sample_id_ids (df : List Row) :
    (add_sample_id df).map (fun row => row.sampleID) =
      (List.range' 1 df.length).map (fun n : ℕ => (n : ℤ)) := by
  unfold add_sample_id
  rw [List.map_map,
    show ((fun row : Row => row.sampleID) ∘
        fun p : Row × ℕ => { p.1 with sampleID := (p.2 : ℤ) }) =
      ((fun n : ℕ => (n : ℤ)) ∘ Prod.snd) from rfl,
    ← List.map_map, List.map_snd_zip df _ (by rw [List.length_range'])]

/-- C4: after loading, the `Sample ID` column is exactly `1, 2, ...,
len(df)` (as integers) — one id per row in file order, strictly increasing,
hence unique and starting at 1 — the loaded table has one row per file row,
and any later filtering passes the surviving rows through unchanged
(a sublist), so their `Sample ID`s are untouched. -/
theorem spec_C4 (df : List Row) (stress activity : Option (List ℤ))
    (sleep_range : Option (ℚ × ℚ)) :
    (add_sample_id df).map (fun row => row.sampleID) =
      (List.range' 1 df.length).map (fun n : ℕ => (n : ℤ)) ∧
    ((add_sample_id df).map (fun row => row.sampleID)).Pairwise (· < ·) ∧
    (add_sample_id df).length = df.length ∧
    (filter_df (add_sample_id df) stress activity sleep_range).Sublist
      (add_sample_id df) := by
  refine ⟨add_sample_id_ids df, ?_, ?_, ?_⟩
  · rw [add_sample_id_ids df, List.pairwise_map]
    have hpw : (List.range' 1 df.length).Pairwise (· < ·) := by
      apply List.pairwise_lt_range'
      omega
    exact hpw.imp fun hab => by exact_mod_cast hab
  · simp [add_sample_id, List.length_range']
  · rw [filter_spec]
    exact List.filter_sublist _

/-- The set of characters Python's `str.strip()` removes by default. -/
def pyIsSpace (c : Char) : Bool :=
  c == ' ' || c == '\t' || c == '\n' || c == '\r' || c == '\x0b' || c == '\x0c'

/-- Python's `name.strip()` on a column name: remove the maximal run of
whitespace at each end. -/
def pyStrip (name : List Char) : List Char :=
  ((name.dropWhile pyIsSpace).reverse.dropWhile pyIsSpace).reverse

/-- Embedding of `df.columns = df.columns.str.strip()` from `src/app.py`
line 10: the loader of the main variant strips every column name. -/
def load_columns_app (cols : List (List Char)) : List (List Char) :=
  cols.map pyStrip

/-- The loader of `src/project4/app.py` (line 8) only calls `read_csv`:
column names are used exactly as read, with no stripping statement. -/
def load_columns_project4 (cols : List (List Char)) : List (List Char) :=
  cols

lemma dropWhile_head_false {α : Type} (p : α → Bool) (l : List α)
    (h : l.dropWhile p ≠ []) : ∃ y, (l.dropWhile p).head? = some y ∧ p y = false := by
  induction l with
  | nil => simp [List.dropWhile] at h
  | cons a tl ih =>
      rw [List.dropWhile_cons] at h ⊢
      by_cases hp : p a
      · simpa [hp] using ih (by simpa [hp] using h)
      · exact ⟨a, by simp [hp]⟩

lemma dropWhile_eq_self_of_head {α : Type} (p : α → Bool) (l : List α)
    (h : ∀ y, l.head? = some y → p y = false) : l.dropWhile p = l := by
  cases l with
  | nil => rfl
  | cons a t =>
      rw [List.dropWhile_cons]
      simp [h a rfl]

lemma pyStrip_noTrail (c : List Char) :
    (pyStrip c).reverse.dropWhile pyIsSpace = (pyStrip c).reverse := by
  unfold pyStrip
  rw [List.reverse_reverse]
  exact List.dropWhile_idempotent _ _

lemma pyStrip_noLead (c : List Char) :
    (pyStrip c).dropWhile pyIsSpace = pyStrip c := by
  refine dropWhile_eq_self_of_head _ _ fun y hy => ?_
  unfold pyStrip at hy
  set D := c.dropWhile pyIsSpace with hD
  set E := D.reverse.dropWhile pyIsSpace with hE
  by_cases hEnil : E = []
  · rw [hEnil] at hy
    simp at hy
  · obtain ⟨t, ht⟩ := List.dropWhile_suffix (l := D.reverse) pyIsSpace
    have h1 : (E.reverse).head? = E.getLast? := List.head?_reverse E
    have h2 : E.getLast? = (D.reverse).getLast? := by
      conv_rhs => rw [← ht]
      exact (List.getLast?_append_of_ne_nil t hEnil).symm
    have h3 : (D.reverse).getLast? = D.head? := List.getLast?_reverse D
    have hDhead : D.head? = some y := by
      rw [h1, h2, h3] at hy
      exact hy
    have hDnil : D ≠ [] := by
      intro hc
      rw [hc] at hDhead
      simp at hDhead
    obtain ⟨z, hz1, hz2⟩ := dropWhile_head_false pyIsSpace c (by rw [← hD]; exact hDnil)
    rw [← hD] at hz1
    rw [hDhead] at hz1
    injection hz1 with hzy
    exact hzy ▸ hz2

/-- C5 fails as stated: the `src/project4/app.py` loader does not trim
column names — a name with a leading space is used as read. -/
theorem spec_C5_counterexample :
    load_columns_project4 [[' ', 'x']] ≠ [[' ', 'x']].map pyStrip := by
  decide

/-- C5 (amended): the `src/app.py` loader strips every column name — its
column names carry no leading or trailing whitespace — but the
`src/project4/app.py` loader performs no trimming and uses column names
exactly as read. -/
theorem spec_C5 (cols : List (List Char)) :
    load_columns_app cols = cols.map pyStrip ∧
    (∀ name ∈ load_columns_app cols,
      name.dropWhile pyIsSpace = name ∧
        name.reverse.dropWhile pyIsSpace = name.reverse) ∧
    load_columns_project4 cols = cols := by
  refine ⟨rfl, ?_, rfl⟩
  intro name hname
  obtain ⟨c, hc, rfl⟩ := List.mem_map.mp hname
  exact ⟨pyStrip_noLead c, pyStrip_noTrail c⟩

/-- Witness for the amended C5 at the one-name column list `[" x"]`. -/
theorem spec_C5_witness :
    (['x'] : List Char).dropWhile pyIsSpace = ['x'] ∧
      (['x'] : List Char).reverse.dropWhile pyIsSpace = (['x'] : List Char).reverse :=
  (spec_C5 [[' ', 'x']]).2.1 ['x'] (by decide)

end SleepDashboard
